import Mathlib

/-!
Verification of the deadline-commit resolution and idempotent mutation layer
of a batch GitLab automation tool (matfyz/gitlab/utils.py and the two batch
actions of matfyz/gitlab/teachers_gitlab.py that consume it).

The embedding is shallow: the remote GitLab service is a record of lookup
and mutation functions, projects are records holding the data the helpers
read (tags, per-branch commit lists, a commit store, the emptiness flag),
timestamps are integers, and raised Python exceptions become the error side
of an Except value.
-/

namespace TeachersGitlab

/-- A commit as the helpers observe it: identifier, authored timestamp
(an integer; the source parses timezone-aware datetimes and only ever
compares them), author email. -/
structure Commit where
  id : String
  created_at : Int
  author_email : String
deriving Repr, DecidableEq

/-- A repository tag: name and target commit (python-gitlab ProjectTag). -/
structure ProjectTag where
  name : String
  commit : Commit
deriving Repr, DecidableEq

/-- A resolved project handle. `branches b` models
`project.commits.list(ref_name=b)`: the full commit history of branch `b`,
newest first, per the listCommits contract of the hosting API. `store`
backs `project.commits.get(id)`. -/
structure Project where
  id : Nat
  path_with_namespace : String
  empty_repo : Bool
  tags : List ProjectTag
  branches : String → List Commit
  store : List Commit

/-- Server-side commit listing with an until-filter:
`project.commits.list(ref_name=branch, until=deadline)` returns the commits
of the branch with timestamp at or before the deadline, newest first. -/
def Project.commits_list (p : Project) (branch : String) (deadline : Int) : List Commit :=
  (p.branches branch).filter (fun c => c.created_at ≤ deadline)

/-- Commit lookup by id: `project.commits.get(commit_id)`. -/
def Project.commits_get (p : Project) (commit_id : String) : Option Commit :=
  p.store.find? (fun c => c.id == commit_id)

/-- The argument of get_canonical_project: a numeric id, a path string, or
an already resolved project object. -/
inductive ProjRef where
  | byId : Nat → ProjRef
  | byPath : String → ProjRef
  | byHandle : Project → ProjRef

/-- gitlab.GitlabCreateError: only its response_code is inspected. -/
structure GitlabCreateError where
  response_code : Nat
deriving Repr, DecidableEq

/-- The action field of a commit file action: create or update. -/
inductive FileAction where
  | create
  | update
deriving Repr, DecidableEq

/-- The single-action commit payload built by put_file. -/
structure CommitData where
  branch : String
  commit_message : String
  action : FileAction
  file_path : String
  content : String
deriving Repr, DecidableEq

/-- The commit object returned by `project.commits.create`. -/
structure CommitOut where
  id : String
deriving Repr, DecidableEq

/-- The remote GitLab service as the helpers use it: project lookup by id
and by path (`glb.projects.get`), fork creation (`parent.forks.create`) and
commit creation (`project.commits.create`). -/
structure Glb where
  getById : Nat → Option Project
  getByPath : String → Option Project
  forksCreate : Project → String → String → Except GitlabCreateError Project
  commitsCreate : Project → CommitData → Except GitlabCreateError CommitOut

/-- The exceptions the modelled helpers can raise. `exception` stands for a
plain Python Exception (the retries generator raises those). -/
inductive UtilError where
  | gitlabGetError (msg : String)
  | gitlabCreateError (e : GitlabCreateError)
  | unexpectedType
  | exception (msg : String)
deriving Repr, DecidableEq

/-- get_canonical_project: an id or path is looked up on the server (a 404
raises GitlabGetError, which python-gitlab raises for a missing project); a
resolved project object is returned as is. The retry decorator around the
source function only masks transient network failures, which the model does
not represent. -/
def get_canonical_project (glb : Glb) : ProjRef → Except UtilError Project
  | .byId i =>
      match glb.getById i with
      | some p => .ok p
      | none => .error (.gitlabGetError "404 Project Not Found")
  | .byPath s =>
      match glb.getByPath s with
      | some p => .ok p
      | none => .error (.gitlabGetError "404 Project Not Found")
  | .byHandle p => .ok p

/-- The trace of one retries(...) generator: the attempt numbers it yields
in order, the interval it sleeps between yields, and the message of the
exception it raises when exhausted. -/
structure RetriesTrace where
  yields : List Nat
  sleep_interval : Nat
  timeout_message : String
deriving Repr, DecidableEq

/-- The while-loop of the retries generator. The fuel argument makes the
recursion structural; it is called with fuel = remaining, which bounds the
iteration count exactly whenever 0 < interval (each step lowers remaining
by interval). The source loops forever when interval = 0; no caller does
that and the model leaves it out of scope. -/
def retries_go (interval : Nat) : Nat → Nat → Nat → List Nat
  | 0, _, _ => []
  | fuel + 1, remaining, n =>
      if 0 < remaining then
        (n + 1) :: retries_go interval fuel (remaining - interval) (n + 1)
      else []

/-- retries(n, interval, timeout, message): with neither n nor timeout it
raises a configuration Exception; otherwise a missing timeout is derived as
n * interval, and the generator yields attempt numbers while the remaining
budget is positive, sleeping interval between yields, raising
Exception(message) at exhaustion. The whole generator is modelled as its
trace. -/
def retries (n : Option Nat) (interval : Nat) (timeout : Option Nat)
    (message : String := "Operation timed-out (too many retries)") :
    Except String RetriesTrace :=
  if n = none ∧ timeout = none then
    .error "Specify either n or timeout for retries"
  else
    let timeout2 : Nat :=
      match timeout with
      | none => n.getD 0 * interval
      | some t => t
    .ok ⟨retries_go interval timeout2 timeout2 0, interval, message⟩

/-- A Python exception as classified by the retry decorator: only its type
name matters (isinstance tests against the allowed list). -/
structure Ex where
  name : String
deriving Repr, DecidableEq

/-- The attempt loop of the wrapper built by retry_on_exception. The wrapped
call is a function from the attempt number to its outcome. Per attempt: on
success return; on an exception ex, the inner for-loop sets last_ex to ex
when ex matches the allowed list (its continue statement only continues
that inner loop); then `if not last_ex: raise ex` re-raises ex only when
last_ex is still None, else the wrapper sleeps and retries. When the
retries(6) generator is exhausted it raises its timeout Exception from the
for statement itself, so the trailing `raise last_ex` is never reached. -/
def retry_wrapper_go {A : Type} (allowed : Ex → Bool) (func : Nat → Except Ex A) :
    Nat → Nat → Option Ex → Except Ex A
  | _, 0, _ => .error ⟨"Operation timed-out (too many retries)"⟩
  | attempt, fuel + 1, last_ex =>
      match func attempt with
      | .ok a => .ok a
      | .error ex =>
          let last_ex2 : Option Ex := if allowed ex then some ex else last_ex
          match last_ex2 with
          | none => .error ex
          | some _ => retry_wrapper_go allowed func (attempt + 1) fuel last_ex2

/-- One call of a function wrapped by retry_on_exception(message, exceptions):
the loop runs over retries(6), which yields 6 attempts (timeout 6 * 2 = 12,
interval 2). -/
def retry_on_exception_call {A : Type} (allowed : Ex → Bool)
    (func : Nat → Except Ex A) : Except Ex A :=
  retry_wrapper_go allowed func 1 6 none

/-- fork_project_idempotent(glb, parent, fork_namespace, fork_name):
canonicalize the parent, try `parent.forks.create`; on success remember the
fork id, on GitlabCreateError with response code 409 (http.HTTPStatus.CONFLICT)
fall back to the deterministic path "namespace/name", any other create error
is re-raised; finally canonicalize the remembered identity. -/
def fork_project_idempotent (glb : Glb) (parent : ProjRef)
    (fork_namespace fork_name : String) : Except UtilError Project :=
  match get_canonical_project glb parent with
  | .error e => .error e
  | .ok parent2 =>
      match glb.forksCreate parent2 fork_namespace fork_name with
      | .ok fork_handle => get_canonical_project glb (.byId fork_handle.id)
      | .error exp =>
          if exp.response_code = 409 then
            get_canonical_project glb (.byPath (fork_namespace ++ "/" ++ fork_name))
          else
            .error (.gitlabCreateError exp)

/-- The commit_data dictionary built by put_file, with the action field a
parameter so that the retried update payload is literally the same data
with only the action changed. -/
def put_file_commit_data (branch commit_message : String) (action : FileAction)
    (file_path content : String) : CommitData :=
  { branch := branch, commit_message := commit_message, action := action,
    file_path := file_path, content := content }

/-- put_file(glb, project, branch, file_path, file_contents, overwrite,
commit_message): canonicalize, try the commit with a create action; on
GitlabCreateError with response code 400 (http.HTTPStatus.BAD_REQUEST,
file already exists) retry the same commit with the action set to update
when overwrite is allowed, else return None (not written); any other create
error is re-raised. The retry decorator around the source function only
masks transient network failures, not modelled. -/
def put_file (glb : Glb) (project : ProjRef) (branch file_path file_contents : String)
    (overwrite : Bool) (commit_message : String) : Except UtilError (Option CommitOut) :=
  match get_canonical_project glb project with
  | .error e => .error e
  | .ok p =>
      match glb.commitsCreate p
          (put_file_commit_data branch commit_message .create file_path file_contents) with
      | .ok r => .ok (some r)
      | .error exp =>
          if exp.response_code = 400 then
            if overwrite then
              match glb.commitsCreate p
                  (put_file_commit_data branch commit_message .update file_path file_contents) with
              | .ok r => .ok (some r)
              | .error exp2 => .error (.gitlabCreateError exp2)
            else
              .ok none
          else
            .error (.gitlabCreateError exp)

/-- get_commit_with_tag(glb, project, tag_name): canonicalize, scan
`project.tags.list()` in order, return the target commit of the first tag
whose name equals tag_name, or None when no tag matches. -/
def get_commit_with_tag (glb : Glb) (project : ProjRef) (tag_name : String) :
    Except UtilError (Option Commit) :=
  match get_canonical_project glb project with
  | .error e => .error e
  | .ok p =>
      match p.tags.find? (fun t => t.name == tag_name) with
      | some t => .ok (some t.commit)
      | none => .ok none

/-- Python truthiness of the optional tag argument: `if tag:` is false for
None and for the empty string. -/
def tag_truthy : Option String → Bool
  | none => false
  | some s => !(s == "")

/-- get_commit_before_deadline(glb, project, deadline, branch, commit_filter,
tag): canonicalize; when a truthy tag is given and carries a commit whose
timestamp is at or before the deadline, fetch that commit by id and return
it at once; a tag dated after the deadline falls through; then list the
branch commits until the deadline (newest first) and return the first one
accepted by commit_filter, raising GitlabGetError "No matching commit
found." when none is. A failing by-id fetch of the tagged commit raises the
GitlabGetError of python-gitlab for a missing commit. -/
def get_commit_before_deadline (glb : Glb) (project : ProjRef) (deadline : Int)
    (branch : String) (commit_filter : Commit → Bool := fun _ => true)
    (tag : Option String := none) : Except UtilError Commit :=
  match get_canonical_project glb project with
  | .error e => .error e
  | .ok p =>
      let branch_resolution : Except UtilError Commit :=
        match (p.commits_list branch deadline).find? commit_filter with
        | some c => .ok c
        | none => .error (.gitlabGetError "No matching commit found.")
      if tag_truthy tag then
        match get_commit_with_tag glb (.byHandle p) (tag.getD "") with
        | .error e => .error e
        | .ok (some c) =>
            if c.created_at ≤ deadline then
              match p.commits_get c.id with
              | some full => .ok full
              | none => .error (.gitlabGetError "404 Commit Not Found")
            else
              branch_resolution
        | .ok none => branch_resolution
      else
        branch_resolution

/-- The polling loop of wait_for_project_to_be_forked, one step per yield of
the retries generator. The server state may change between polls, so the
service is indexed by the resolution counter: `glbAt k` is the state seen
by the k-th call of get_canonical_project (the initial resolution is call
0). While the current handle still reports empty_repo, the project is
re-resolved freshly by its path; generator exhaustion raises the timeout
Exception of the generator. -/
def wait_fork_loop (glbAt : Nat → Glb) (message : String) :
    List Nat → Project → Nat → Except UtilError Unit
  | [], _, _ => .error (.exception message)
  | _ :: rest, project, k =>
      if project.empty_repo then
        match get_canonical_project (glbAt k) (.byPath project.path_with_namespace) with
        | .ok p2 => wait_fork_loop glbAt message rest p2 (k + 1)
        | .error e => .error e
      else
        .ok ()

/-- wait_for_project_to_be_forked(glb, project_path, timeout): resolve the
project, then poll over retries(120, 5, timeout) until the emptiness flag
clears, re-resolving by path on every iteration. -/
def wait_for_project_to_be_forked (glbAt : Nat → Glb) (project_path : String)
    (timeout : Option Nat := none) : Except UtilError Unit :=
  match get_canonical_project (glbAt 0) (.byPath project_path) with
  | .error e => .error e
  | .ok project =>
      match retries (some 120) 5 timeout with
      | .error msg => .error (.exception msg)
      | .ok trace => wait_fork_loop glbAt trace.timeout_message trace.yields project 1

/-- The per-entry loop of the get-file action (teachers_gitlab.py, lines
592 to 606): entries are the projects yielded by as_existing_gitlab_projects;
for each one the deadline commit is resolved with no tag, a GitlabGetError
is caught, logged as "No matching commit" and the loop continues with the
next entry (outcome none); any other error propagates. The later download
of the file itself is not part of the claims and is left out. -/
def action_get_file_loop (glb : Glb) (deadline : Int) (branch : String)
    (commit_filter : Commit → Bool) : List ProjRef → Except UtilError (List (Option Commit))
  | [] => .ok []
  | project :: rest =>
      match get_commit_before_deadline glb project deadline branch commit_filter none with
      | .ok last_commit =>
          (action_get_file_loop glb deadline branch commit_filter rest).map
            (fun v => some last_commit :: v)
      | .error (.gitlabGetError _) =>
          (action_get_file_loop glb deadline branch commit_filter rest).map
            (fun v => none :: v)
      | .error e => .error e

/-- The per-entry loop of the deadline-commits action (teachers_gitlab.py,
lines 938 to 950): for each project the deadline commit is resolved with
the preferred tag; the call is not wrapped in any try block, so an error
propagates out of the loop and the remaining entries are not processed. A
produced row is modelled by the commit id (the default row format is
"{login},{commit.id}"). -/
def action_deadline_commits_loop (glb : Glb) (deadline : Int) (branch : String)
    (commit_filter : Commit → Bool) (prefer_tag : Option String) :
    List ProjRef → Except UtilError (List String)
  | [] => .ok []
  | project :: rest =>
      match get_commit_before_deadline glb project deadline branch commit_filter prefer_tag with
      | .ok last_commit =>
          (action_deadline_commits_loop glb deadline branch commit_filter prefer_tag rest).map
            (fun v => last_commit.id :: v)
      | .error e => .error e

/-! Concrete test fixtures used by the witnesses and counterexamples. -/

/-- A commit by an allowed author, timestamp 50. -/
def cAllowed : Commit := ⟨"c-allowed", 50, "student@example.com"⟩

/-- A commit by a blacklisted author, timestamp 80 (newer than cAllowed). -/
def cBlack : Commit := ⟨"c-black", 80, "teacher@example.com"⟩

/-- The commit targeted by the sample tag, timestamp 30, blacklisted author. -/
def cTagged : Commit := ⟨"c-tagged", 30, "teacher@example.com"⟩

/-- A commit after the sample deadline of 100, timestamp 200. -/
def cLate : Commit := ⟨"c-late", 200, "student@example.com"⟩

/-- A sample student repository: master holds, newest first, cLate, cBlack,
cAllowed; one tag named submission targeting cTagged. -/
def sampleProject : Project :=
  { id := 1
    path_with_namespace := "student/repo"
    empty_repo := false
    tags := [⟨"submission", cTagged⟩]
    branches := fun b => if b = "master" then [cLate, cBlack, cAllowed] else []
    store := [cLate, cBlack, cAllowed, cTagged] }

/-- A repository with no commits at all. -/
def emptyProject : Project :=
  { id := 2
    path_with_namespace := "student/empty"
    empty_repo := true
    tags := []
    branches := fun _ => []
    store := [] }

/-- The author blacklist of the batch actions, as a predicate: reject
commits whose author email is the teacher address. -/
def blacklistFilter : Commit → Bool :=
  fun c => !(c.author_email == "teacher@example.com")

/-- A sample service holding the two repositories above. -/
def glbSample : Glb :=
  { getById := fun i =>
      if i = 1 then some sampleProject else if i = 2 then some emptyProject else none
    getByPath := fun s =>
      if s = "student/repo" then some sampleProject
      else if s = "student/empty" then some emptyProject else none
    forksCreate := fun _ _ _ => .error ⟨409⟩
    commitsCreate := fun _ _ => .error ⟨400⟩ }

/-! Helper lemmas. -/

/-- A successful commits_get lookup returns a commit carrying the id that
was looked up. -/
theorem commits_get_id {p : Project} {cid : String} {full : Commit}
    (h : p.commits_get cid = some full) : full.id = cid := by
  unfold Project.commits_get at h
  have h2 := List.find?_some h
  simpa using h2

/-- find? skips a prefix on which the predicate is false everywhere. -/
theorem find?_skip_prefix {α : Type} (f : α → Bool) (pre l : List α)
    (hpre : ∀ x ∈ pre, f x = false) :
    (pre ++ l).find? f = l.find? f := by
  induction pre with
  | nil => rfl
  | cons a as ih =>
      have ha : f a = false := hpre a (by simp)
      simp only [List.cons_append, List.find?, ha]
      exact ih (fun x hx => hpre x (by simp [hx]))

/-! Claim theorems. -/

/-- Claim C1: when a tag of the requested name exists and its target commit
is dated at or before the deadline, get_commit_before_deadline returns that
commit (as re-fetched by id) immediately, whatever the branch history and
the commit filter are; the returned commit carries the id of the tagged
commit. -/
theorem C1_tag_precedence
    (glb : Glb) (ref : ProjRef) (p : Project) (deadline : Int) (branch : String)
    (commit_filter : Commit → Bool) (tname : String) (c full : Commit)
    (hcanon : get_canonical_project glb ref = .ok p)
    (hname : tname ≠ "")
    (htag : get_commit_with_tag glb (.byHandle p) tname = .ok (some c))
    (hts : c.created_at ≤ deadline)
    (hget : p.commits_get c.id = some full) :
    get_commit_before_deadline glb ref deadline branch commit_filter (some tname) = .ok full
      ∧ full.id = c.id := by
  refine ⟨?_, commits_get_id hget⟩
  simp [get_commit_before_deadline, hcanon, tag_truthy, hname, htag, hts, hget]

/-- Claim C1 witness: in the sample repository the tag "submission" dates
from timestamp 30, before the deadline 100, so its commit is returned even
though newer branch commits also precede the deadline. -/
theorem C1_witness :
    get_commit_before_deadline glbSample (.byHandle sampleProject) 100 "master"
      blacklistFilter (some "submission") = .ok cTagged :=
  (C1_tag_precedence glbSample (.byHandle sampleProject) sampleProject 100 "master"
    blacklistFilter "submission" cTagged cTagged rfl (by decide) rfl (by decide) rfl).1

/-- Claim C2: when the requested tag exists but its commit is dated after
the deadline, get_commit_before_deadline behaves exactly as the same call
with no tag at all (branch-history resolution). -/
theorem C2_tag_fallback
    (glb : Glb) (ref : ProjRef) (p : Project) (deadline : Int) (branch : String)
    (commit_filter : Commit → Bool) (tname : String) (c : Commit)
    (hcanon : get_canonical_project glb ref = .ok p)
    (htag : get_commit_with_tag glb (.byHandle p) tname = .ok (some c))
    (hts : deadline < c.created_at) :
    get_commit_before_deadline glb ref deadline branch commit_filter (some tname)
      = get_commit_before_deadline glb ref deadline branch commit_filter none := by
  by_cases h : tname = ""
  · subst h
    simp [get_commit_before_deadline, hcanon, tag_truthy]
  · simp [get_commit_before_deadline, hcanon, tag_truthy, h, htag, not_le.mpr hts]

/-- Claim C2 witness: with deadline 25 the sample tag (timestamp 30) is too
late, and the tagged call equals the untagged call. -/
theorem C2_witness :
    get_commit_before_deadline glbSample (.byHandle sampleProject) 25 "master"
      blacklistFilter (some "submission")
    = get_commit_before_deadline glbSample (.byHandle sampleProject) 25 "master"
      blacklistFilter none :=
  C2_tag_fallback glbSample (.byHandle sampleProject) sampleProject 25 "master"
    blacklistFilter "submission" cTagged rfl rfl (by decide)

/-- Claim C3: with no tag, get_commit_before_deadline returns the first
commit, in the newest-first until-deadline listing, that the commit filter
accepts: whenever that listing splits as pre ++ c :: suf with the filter
rejecting everything in pre and accepting c, the result is c. -/
theorem C3_first_passing_commit
    (glb : Glb) (ref : ProjRef) (p : Project) (deadline : Int) (branch : String)
    (commit_filter : Commit → Bool) (pre suf : List Commit) (c : Commit)
    (hcanon : get_canonical_project glb ref = .ok p)
    (hsplit : p.commits_list branch deadline = pre ++ c :: suf)
    (hpre : ∀ x ∈ pre, commit_filter x = false)
    (hc : commit_filter c = true) :
    get_commit_before_deadline glb ref deadline branch commit_filter none = .ok c := by
  have hfind : (p.commits_list branch deadline).find? commit_filter = some c := by
    rw [hsplit, find?_skip_prefix commit_filter pre _ hpre]
    simp [List.find?, hc]
  simp [get_commit_before_deadline, hcanon, tag_truthy, hfind]

/-- Claim C3 witness: in the sample repository with deadline 100 the
newest-first listing is cBlack (blacklisted author) then cAllowed; the
resolver skips cBlack and returns cAllowed. -/
theorem C3_witness :
    get_commit_before_deadline glbSample (.byHandle sampleProject) 100 "master"
      blacklistFilter none = .ok cAllowed :=
  C3_first_passing_commit glbSample (.byHandle sampleProject) sampleProject 100 "master"
    blacklistFilter [cBlack] [] cAllowed rfl (by decide) (by decide) (by decide)

/-- Claim C10: on the tag path the commit filter is never consulted: the
tagged commit is returned even when the filter rejects it, although the
untagged (branch-history) resolution can never return that commit, since
whatever it returns is accepted by the filter. -/
theorem C10_tag_skips_blacklist
    (glb : Glb) (ref : ProjRef) (p : Project) (deadline : Int) (branch : String)
    (commit_filter : Commit → Bool) (tname : String) (c full : Commit)
    (hcanon : get_canonical_project glb ref = .ok p)
    (hname : tname ≠ "")
    (htag : get_commit_with_tag glb (.byHandle p) tname = .ok (some c))
    (hts : c.created_at ≤ deadline)
    (hget : p.commits_get c.id = some full)
    (hblack : commit_filter full = false) :
    get_commit_before_deadline glb ref deadline branch commit_filter (some tname) = .ok full
      ∧ ∀ c2, get_commit_before_deadline glb ref deadline branch commit_filter none = .ok c2
          → c2 ≠ full := by
  constructor
  · simp [get_commit_before_deadline, hcanon, tag_truthy, hname, htag, hts, hget]
  · intro c2 h heq
    subst heq
    simp only [get_commit_before_deadline, hcanon, tag_truthy] at h
    cases hf : (p.commits_list branch deadline).find? commit_filter with
    | none => simp [hf] at h
    | some d =>
        simp [hf] at h
        have hd := List.find?_some hf
        rw [h] at hd
        rw [hd] at hblack
        exact Bool.noConfusion hblack

/-- Claim C10 witness: the sample tag targets a commit by a blacklisted
author; the tagged resolution returns it anyway, while the untagged
resolution returns cAllowed, a different commit. -/
theorem C10_witness :
    get_commit_before_deadline glbSample (.byHandle sampleProject) 100 "master"
      blacklistFilter (some "submission") = .ok cTagged
    ∧ cAllowed ≠ cTagged := by
  have h := C10_tag_skips_blacklist glbSample (.byHandle sampleProject) sampleProject 100
    "master" blacklistFilter "submission" cTagged cTagged rfl (by decide) rfl (by decide)
    rfl (by decide)
  exact ⟨h.1, fun he => h.2 cAllowed rfl he⟩

/-- Claim C4 counterexample: in the deadline-commits action the call of
get_commit_before_deadline is not wrapped in any try block, so on a batch
whose first entry has no commit at or before the deadline the whole batch
aborts with the "no matching commit" error and the remaining entries are
never processed, against the claim that the failure is reported per entry
and is never fatal to the batch. -/
theorem C4_counterexample :
    action_deadline_commits_loop glbSample 100 "master" blacklistFilter none
      [.byHandle emptyProject, .byHandle sampleProject]
    = .error (.gitlabGetError "No matching commit found.") := by
  rfl

/-- Claim C4 amended: when no commit passes the filter (including an empty
listing) get_commit_before_deadline fails with the "no matching commit"
error; the get-file action catches it, records a per-entry empty outcome
and continues with the remaining entries, while the deadline-commits
action propagates it and aborts the whole batch. -/
theorem C4_no_match_reporting :
    (∀ (glb : Glb) (ref : ProjRef) (p : Project) (deadline : Int) (branch : String)
        (commit_filter : Commit → Bool),
        get_canonical_project glb ref = .ok p →
        (p.commits_list branch deadline).find? commit_filter = none →
        get_commit_before_deadline glb ref deadline branch commit_filter none
          = .error (.gitlabGetError "No matching commit found."))
  ∧ (∀ (glb : Glb) (deadline : Int) (branch : String) (commit_filter : Commit → Bool)
        (ref : ProjRef) (rest : List ProjRef) (msg : String),
        get_commit_before_deadline glb ref deadline branch commit_filter none
          = .error (.gitlabGetError msg) →
        action_get_file_loop glb deadline branch commit_filter (ref :: rest)
          = (action_get_file_loop glb deadline branch commit_filter rest).map
              (fun v => none :: v))
  ∧ (∀ (glb : Glb) (deadline : Int) (branch : String) (commit_filter : Commit → Bool)
        (prefer_tag : Option String) (ref : ProjRef) (rest : List ProjRef) (e : UtilError),
        get_commit_before_deadline glb ref deadline branch commit_filter prefer_tag
          = .error e →
        action_deadline_commits_loop glb deadline branch commit_filter prefer_tag (ref :: rest)
          = .error e) := by
  refine ⟨?_, ?_, ?_⟩
  · intro glb ref p deadline branch commit_filter hcanon hfind
    simp [get_commit_before_deadline, hcanon, tag_truthy, hfind]
  · intro glb deadline branch commit_filter ref rest msg h
    simp [action_get_file_loop, h]
  · intro glb deadline branch commit_filter prefer_tag ref rest e h
    simp [action_deadline_commits_loop, h]

/-- Claim C4 witness: the empty sample repository yields the "no matching
commit" error; in a two-entry batch the get-file loop reports it per entry
and still processes the second entry, while the deadline-commits loop
aborts with the error. -/
theorem C4_witness :
    get_commit_before_deadline glbSample (.byHandle emptyProject) 100 "master"
      blacklistFilter none = .error (.gitlabGetError "No matching commit found.")
    ∧ action_get_file_loop glbSample 100 "master" blacklistFilter
        [.byHandle emptyProject, .byHandle sampleProject] = .ok [none, some cAllowed]
    ∧ action_deadline_commits_loop glbSample 100 "master" blacklistFilter none
        [.byHandle emptyProject, .byHandle sampleProject]
      = .error (.gitlabGetError "No matching commit found.") := by
  have h1 := C4_no_match_reporting.1 glbSample (.byHandle emptyProject) emptyProject 100
    "master" blacklistFilter rfl rfl
  have h2 := C4_no_match_reporting.2.1 glbSample 100 "master" blacklistFilter
    (.byHandle emptyProject) [.byHandle sampleProject] "No matching commit found." h1
  have h3 := C4_no_match_reporting.2.2 glbSample 100 "master" blacklistFilter none
    (.byHandle emptyProject) [.byHandle sampleProject]
    (.gitlabGetError "No matching commit found.") h1
  exact ⟨h1, h2.trans rfl, h3⟩

/-- The upstream repository of the fork fixtures. -/
def parentProject : Project :=
  { id := 3
    path_with_namespace := "teacher/upstream"
    empty_repo := false
    tags := []
    branches := fun _ => []
    store := [] }

/-- The fork of parentProject as it exists on the server. -/
def forkedProject : Project :=
  { id := 7
    path_with_namespace := "students/alice-repo"
    empty_repo := true
    tags := []
    branches := fun _ => []
    store := [] }

/-- Server state for the first fork call: the fork does not yet exist, so
creation succeeds and returns forkedProject. -/
def glbFork1 : Glb :=
  { getById := fun i =>
      if i = 7 then some forkedProject else if i = 3 then some parentProject else none
    getByPath := fun s => if s = "teacher/upstream" then some parentProject else none
    forksCreate := fun _ _ _ => .ok forkedProject
    commitsCreate := fun _ _ => .error ⟨400⟩ }

/-- Server state for the second fork call: the fork already exists, so
creation reports a conflict and the fork is resolvable at its path. -/
def glbFork2 : Glb :=
  { getById := fun i =>
      if i = 7 then some forkedProject else if i = 3 then some parentProject else none
    getByPath := fun s =>
      if s = "students/alice-repo" then some forkedProject
      else if s = "teacher/upstream" then some parentProject else none
    forksCreate := fun _ _ _ => .error ⟨409⟩
    commitsCreate := fun _ _ => .error ⟨400⟩ }

/-- Claim C5: a conflict (409) on fork creation is not an error: the fork is
re-resolved at the deterministic path namespace/name; any non-conflict
creation failure propagates; and a first call that creates the fork and a
second call that hits the conflict both return the same resolved target
handle. -/
theorem C5_fork_idempotent :
    (∀ (glb : Glb) (parent : ProjRef) (p : Project) (ns name : String)
        (e : GitlabCreateError) (target : Project),
        get_canonical_project glb parent = .ok p →
        glb.forksCreate p ns name = .error e →
        e.response_code = 409 →
        glb.getByPath (ns ++ "/" ++ name) = some target →
        fork_project_idempotent glb parent ns name = .ok target)
  ∧ (∀ (glb : Glb) (parent : ProjRef) (p : Project) (ns name : String)
        (e : GitlabCreateError),
        get_canonical_project glb parent = .ok p →
        glb.forksCreate p ns name = .error e →
        e.response_code ≠ 409 →
        fork_project_idempotent glb parent ns name = .error (.gitlabCreateError e))
  ∧ (∀ (glb1 glb2 : Glb) (parent : ProjRef) (p1 p2 : Project) (ns name : String)
        (h : Project) (e2 : GitlabCreateError) (target : Project),
        get_canonical_project glb1 parent = .ok p1 →
        glb1.forksCreate p1 ns name = .ok h →
        glb1.getById h.id = some target →
        get_canonical_project glb2 parent = .ok p2 →
        glb2.forksCreate p2 ns name = .error e2 →
        e2.response_code = 409 →
        glb2.getByPath (ns ++ "/" ++ name) = some target →
        fork_project_idempotent glb1 parent ns name = .ok target
          ∧ fork_project_idempotent glb2 parent ns name = .ok target) := by
  refine ⟨?_, ?_, ?_⟩
  · intro glb parent p ns name e target hcanon hcreate hcode hpath
    simp only [fork_project_idempotent, hcanon, hcreate, hcode, if_true]
    simp [get_canonical_project, hpath]
  · intro glb parent p ns name e hcanon hcreate hcode
    simp [fork_project_idempotent, hcanon, hcreate, hcode]
  · intro glb1 glb2 parent p1 p2 ns name h e2 target
      hcanon1 hcreate1 hid hcanon2 hcreate2 hcode2 hpath2
    constructor
    · simp only [fork_project_idempotent, hcanon1, hcreate1]
      simp [get_canonical_project, hid]
    · simp only [fork_project_idempotent, hcanon2, hcreate2, hcode2, if_true]
      simp [get_canonical_project, hpath2]

/-- Claim C5 witness: forking teacher/upstream into students/alice-repo
returns the same handle when the fork is created (glbFork1) and when the
creation conflicts because the fork already exists (glbFork2). -/
theorem C5_witness :
    fork_project_idempotent glbFork1 (.byPath "teacher/upstream") "students" "alice-repo"
      = .ok forkedProject
    ∧ fork_project_idempotent glbFork2 (.byPath "teacher/upstream") "students" "alice-repo"
      = .ok forkedProject :=
  C5_fork_idempotent.2.2 glbFork1 glbFork2 (.byPath "teacher/upstream")
    parentProject parentProject "students" "alice-repo" forkedProject ⟨409⟩ forkedProject
    rfl rfl rfl rfl rfl rfl rfl

/-- Server state for the put_file fixture: creating the file fails with 400
(it already exists), updating succeeds. -/
def glbPut : Glb :=
  { getById := fun i => if i = 1 then some sampleProject else none
    getByPath := fun s => if s = "student/repo" then some sampleProject else none
    forksCreate := fun _ _ _ => .error ⟨409⟩
    commitsCreate := fun _ cd =>
      match cd.action with
      | .create => .error ⟨400⟩
      | .update => .ok ⟨"commit-after-update"⟩ }

/-- Claim C6: when the create action of put_file is rejected with a 400
(file already exists), an allowed overwrite retries the same commit data
with the action switched to update and returns its result, a forbidden
overwrite returns the not-written signal None without raising, and any
non-400 creation failure propagates. -/
theorem C6_put_file_overwrite
    (glb : Glb) (ref : ProjRef) (p : Project)
    (branch fpath contents message : String) (e : GitlabCreateError)
    (hcanon : get_canonical_project glb ref = .ok p)
    (hcreate : glb.commitsCreate p
        (put_file_commit_data branch message .create fpath contents) = .error e) :
    (e.response_code = 400 →
        ∀ r, glb.commitsCreate p
            (put_file_commit_data branch message .update fpath contents) = .ok r →
          put_file glb ref branch fpath contents true message = .ok (some r))
  ∧ (e.response_code = 400 →
        put_file glb ref branch fpath contents false message = .ok none)
  ∧ (e.response_code ≠ 400 → ∀ overwrite,
        put_file glb ref branch fpath contents overwrite message
          = .error (.gitlabCreateError e)) := by
  refine ⟨?_, ?_, ?_⟩
  · intro hcode r hupdate
    simp [put_file, hcanon, hcreate, hcode, hupdate]
  · intro hcode
    simp [put_file, hcanon, hcreate, hcode]
  · intro hcode overwrite
    simp [put_file, hcanon, hcreate, hcode]

/-- Claim C6 witness: on glbPut the create action is rejected with 400;
with overwrite the update result is returned, without overwrite the call
returns the not-written signal. -/
theorem C6_witness :
    put_file glbPut (.byHandle sampleProject) "master" "report.txt" "hello" true "msg"
      = .ok (some ⟨"commit-after-update"⟩)
    ∧ put_file glbPut (.byHandle sampleProject) "master" "report.txt" "hello" false "msg"
      = .ok none := by
  have h := C6_put_file_overwrite glbPut (.byHandle sampleProject) sampleProject
    "master" "report.txt" "hello" "msg" ⟨400⟩ rfl rfl
  exact ⟨h.1 rfl ⟨"commit-after-update"⟩ rfl, h.2.1 rfl⟩

/-- The retryable set of the retry decorator fixture: only connection
errors are declared retryable. -/
def c7_allowed : Ex → Bool := fun ex => ex.name == "ConnectionError"

/-- A wrapped call that hits a retryable connection error on attempt 1, a
non-retryable validation error on attempt 2, and succeeds from attempt 3. -/
def c7_func : Nat → Except Ex Nat := fun attempt =>
  if attempt = 1 then .error ⟨"ConnectionError"⟩
  else if attempt = 2 then .error ⟨"ValueError"⟩
  else .ok 42

/-- Claim C7 evaluation at the failing input: after the retryable failure
of attempt 1 has set last_ex, the non-retryable failure of attempt 2 is
swallowed (the guard `if not last_ex` is false), the wrapper sleeps and
retries, and the call returns the attempt-3 success instead of propagating
the non-retryable error. -/
theorem C7_nonretryable_swallowed :
    retry_on_exception_call c7_allowed c7_func = .ok 42
    ∧ retry_on_exception_call c7_allowed c7_func ≠ .error ⟨"ValueError"⟩ := by
  constructor
  · rfl
  · intro h
    rw [show retry_on_exception_call c7_allowed c7_func = .ok 42 from rfl] at h
    exact Except.noConfusion h

/-- Claim C7 contrast: with no earlier retryable failure the non-retryable
error does propagate on its first occurrence. -/
theorem retry_first_failure_propagates
    {A : Type} (allowed : Ex → Bool) (func : Nat → Except Ex A) (ex : Ex)
    (h1 : func 1 = .error ex) (hna : allowed ex = false) :
    retry_on_exception_call allowed func = .error ex := by
  simp [retry_on_exception_call, retry_wrapper_go, h1, hna]

/-- Claim C8 counterexample: with both a count (3) and a timeout (12)
given, the generator keeps the caller-supplied interval 2 and yields 6
attempts; the interval is not derived as timeout divided by attempts,
which would be 4. -/
theorem C8_counterexample :
    retries (some 3) 2 (some 12)
      = .ok ⟨[1, 2, 3, 4, 5, 6], 2, "Operation timed-out (too many retries)"⟩
    ∧ (2 : Nat) ≠ 12 / 3 :=
  ⟨rfl, by decide⟩

/-- Claim C8 amended: calling retries with neither a count nor a timeout
raises the configuration error before any attempt is yielded; when both a
count and a timeout are given, the count is ignored (any two counts give
the same trace) and the sleep interval between attempts is the
caller-supplied interval, unchanged. -/
theorem C8_retries_policy :
    (∀ (interval : Nat) (message : String),
        retries none interval none message
          = .error "Specify either n or timeout for retries")
  ∧ (∀ (a b interval t : Nat) (message : String),
        retries (some a) interval (some t) message
          = retries (some b) interval (some t) message)
  ∧ (∀ (a interval t : Nat) (message : String),
        (retries (some a) interval (some t) message).map (fun tr => tr.sleep_interval)
          = .ok interval) :=
  ⟨fun _ _ => rfl, fun _ _ _ _ _ => rfl, fun _ _ _ _ => rfl⟩

/-- One step of the fork-waiter loop: an empty current handle is freshly
re-resolved by its path and the loop continues with the next yield. -/
theorem wait_fork_loop_step (glbAt : Nat → Glb) (message : String) (y : Nat)
    (ys : List Nat) (p p2 : Project) (k : Nat)
    (hemp : p.empty_repo = true)
    (hres : (glbAt k).getByPath p.path_with_namespace = some p2) :
    wait_fork_loop glbAt message (y :: ys) p k = wait_fork_loop glbAt message ys p2 (k + 1) := by
  simp [wait_fork_loop, hemp, get_canonical_project, hres]

/-- If every re-resolution keeps reporting an empty repository, the waiter
loop ends in the timeout exception of the generator. -/
theorem wait_fork_loop_all_empty (glbAt : Nat → Glb) (message path : String)
    (pAt : Nat → Project)
    (hres : ∀ k, (glbAt k).getByPath path = some (pAt k))
    (hpath : ∀ k, (pAt k).path_with_namespace = path)
    (hempty : ∀ k, (pAt k).empty_repo = true) :
    ∀ (ys : List Nat) (s : Nat),
      wait_fork_loop glbAt message ys (pAt s) (s + 1) = .error (.exception message) := by
  intro ys
  induction ys with
  | nil => intro s; simp [wait_fork_loop]
  | cons y rest ih =>
      intro s
      rw [wait_fork_loop_step glbAt message y rest (pAt s) (pAt (s + 1)) (s + 1)
        (hempty s) (by rw [hpath s]; exact hres (s + 1))]
      exact ih (s + 1)

/-- If the first j re-resolutions report empty and the j-th current handle
reports non-empty while the yield budget still covers step j, the waiter
loop returns successfully. -/
theorem wait_fork_loop_clears (glbAt : Nat → Glb) (message path : String)
    (pAt : Nat → Project)
    (hres : ∀ k, (glbAt k).getByPath path = some (pAt k))
    (hpath : ∀ k, (pAt k).path_with_namespace = path) :
    ∀ (j : Nat) (ys : List Nat) (s : Nat), j < ys.length →
      (∀ i, s ≤ i → i < s + j → (pAt i).empty_repo = true) →
      (pAt (s + j)).empty_repo = false →
      wait_fork_loop glbAt message ys (pAt s) (s + 1) = .ok () := by
  intro j
  induction j with
  | zero =>
      intro ys s hlen hemp hclear
      cases ys with
      | nil => simp at hlen
      | cons y rest =>
          have h0 : (pAt s).empty_repo = false := by simpa using hclear
          simp [wait_fork_loop, h0]
  | succ j ih =>
      intro ys s hlen hemp hclear
      cases ys with
      | nil => simp at hlen
      | cons y rest =>
          have hse : (pAt s).empty_repo = true := hemp s le_rfl (by omega)
          rw [wait_fork_loop_step glbAt message y rest (pAt s) (pAt (s + 1)) (s + 1)
            hse (by rw [hpath s]; exact hres (s + 1))]
          have harith : s + 1 + j = s + (j + 1) := by omega
          exact ih rest (s + 1) (by simpa using hlen)
            (fun i hi1 hi2 => hemp i (by omega) (by omega))
            (by rw [harith]; exact hclear)

/-- Claim C9: the fork waiter, polling over fresh by-path re-resolutions,
returns as soon as the checked handle reports a non-empty repository
within the yield budget; when every resolution keeps reporting empty it
raises the timeout exception of the retries generator; and the default
budget (timeout not given) is 120 polls at 5-second intervals. -/
theorem C9_fork_waiter (glbAt : Nat → Glb) (path : String) (pAt : Nat → Project)
    (timeout : Option Nat)
    (hres : ∀ k, (glbAt k).getByPath path = some (pAt k))
    (hpath : ∀ k, (pAt k).path_with_namespace = path) :
    (∀ (j : Nat) (trace : RetriesTrace),
        retries (some 120) 5 timeout = .ok trace →
        j < trace.yields.length →
        (∀ i, i < j → (pAt i).empty_repo = true) →
        (pAt j).empty_repo = false →
        wait_for_project_to_be_forked glbAt path timeout = .ok ())
  ∧ ((∀ k, (pAt k).empty_repo = true) →
        wait_for_project_to_be_forked glbAt path timeout
          = .error (.exception "Operation timed-out (too many retries)"))
  ∧ ((retries (some 120) 5 none).map (fun t => (t.yields.length, t.sleep_interval))
        = .ok (120, 5)) := by
  have hres0 : get_canonical_project (glbAt 0) (.byPath path) = .ok (pAt 0) := by
    simp [get_canonical_project, hres 0]
  refine ⟨?_, ?_, by rfl⟩
  · intro j trace htrace hlen hemp hclear
    simp only [wait_for_project_to_be_forked, hres0, htrace]
    have hmsg : trace.timeout_message = "Operation timed-out (too many retries)" := by
      cases timeout <;> simp [retries] at htrace <;> rw [← htrace]
    exact wait_fork_loop_clears glbAt trace.timeout_message path pAt hres hpath j
      trace.yields 0 hlen (fun i hi1 hi2 => hemp i (by omega)) (by simpa using hclear)
  · intro hempty
    have hmain := wait_fork_loop_all_empty glbAt
      "Operation timed-out (too many retries)" path pAt hres hpath hempty
    cases timeout with
    | none =>
        simp only [wait_for_project_to_be_forked, hres0]
        rw [show retries (some 120) 5 none
          = .ok ⟨retries_go 5 600 600 0, 5, "Operation timed-out (too many retries)"⟩ from rfl]
        exact hmain (retries_go 5 600 600 0) 0
    | some t =>
        simp only [wait_for_project_to_be_forked, hres0]
        rw [show retries (some 120) 5 (some t)
          = .ok ⟨retries_go 5 t t 0, 5, "Operation timed-out (too many retries)"⟩ from rfl]
        exact hmain (retries_go 5 t t 0) 0

/-- The freshly created sample fork, still empty at poll 0. -/
def forkEmptyState : Project :=
  { id := 9
    path_with_namespace := "students/alice-fork"
    empty_repo := true
    tags := []
    branches := fun _ => []
    store := [] }

/-- The sample fork once its content is populated. -/
def forkReadyState : Project :=
  { forkEmptyState with empty_repo := false }

/-- The server view of the sample fork across the polls: empty at the
initial resolution, populated from the first re-resolution on. -/
def c9_pAt : Nat → Project := fun k => if k = 0 then forkEmptyState else forkReadyState

/-- The time-indexed server of the fork-waiter fixture. -/
def c9_glbAt : Nat → Glb := fun k =>
  { getById := fun _ => none
    getByPath := fun s => if s = "students/alice-fork" then some (c9_pAt k) else none
    forksCreate := fun _ _ _ => .error ⟨409⟩
    commitsCreate := fun _ _ => .error ⟨400⟩ }

set_option maxRecDepth 4000 in
/-- Claim C9 witness: on the fixture whose fork is populated at the first
re-resolution, the waiter returns successfully with the default budget. -/
theorem C9_witness :
    wait_for_project_to_be_forked c9_glbAt "students/alice-fork" none = .ok () := by
  have h := (C9_fork_waiter c9_glbAt "students/alice-fork" c9_pAt none
    (fun k => by simp [c9_glbAt])
    (fun k => by unfold c9_pAt; split <;> rfl)).1
  exact h 1 ⟨retries_go 5 600 600 0, 5, "Operation timed-out (too many retries)"⟩ rfl
    (by decide)
    (fun i hi => by
      have h0 : i = 0 := by omega
      subst h0
      rfl)
    rfl

end TeachersGitlab
